import Mathlib

set_option linter.unusedVariables false

/-!
Verification of the Session & Metadata Cache Engine of a PostgreSQL
explorer application.

Shallow embedding of:
- the main-process `PostgreSQLService` (src/lib/main/database-handler.ts):
  connection lifecycle (`connect`, `disconnect`, `testConnection`),
  query execution with result normalization (`executeQuery`,
  `getDataTypeName`), and metadata queries (`getTables`);
- the renderer-side `PostgreSQLService` and the query part of
  `useDatabaseStore` (src/app/services/database/postgresql.service.ts and
  the zustand store): connected flag, query history, error fields;
- `ConnectionManagerService.getConnections`
  (src/app/services/database/connection-manager.service.ts).

External effects (the pg driver, IPC, localStorage, JSON.parse, the
wall clock) are passed in as explicit oracle arguments, so every
definition is an executable total function translated from the source.
-/

/-- `PostgreSQLConnectionConfig` from src/app/services/database/types.ts. -/
structure PGConnectionConfig where
  id : Option String
  name : String
  host : String
  port : Nat
  database : String
  username : String
  password : String
  ssl : Bool
  savePassword : Bool
  lastUsed : Option String
  deriving DecidableEq

/-- The pg `ClientConfig` record built by `createClient`.  `sslFlag`
models the `ssl ? { rejectUnauthorized: false } : false` field. -/
structure ClientConfig where
  host : String
  port : Nat
  database : String
  user : String
  password : String
  sslFlag : Bool
  deriving DecidableEq

/-- `ConnectionTestResult` from types.ts.  The `error` field carries the
driver error message when present. -/
structure ConnTestResult where
  success : Bool
  message : String
  error : Option String
  deriving DecidableEq

/-- Ghost event emitted whenever a network handle is actually opened
(a `Client.connect()` call resolved) or destroyed (`end()` ran on an
open handle, or the handle object was dropped after `end()` threw —
either way the service no longer holds it). -/
inductive HandleEvent where
  | opened
  | closed
  deriving DecidableEq

/-- State of the main-process `PostgreSQLService` singleton
(database-handler.ts lines 17-20): the live client handle (identified
by the `ClientConfig` it was opened with), and the two stored config
fields. -/
structure MainService where
  client : Option ClientConfig
  config : Option ClientConfig
  connectionConfig : Option PGConnectionConfig
  deriving DecidableEq

/-- Initial state of the singleton: all fields null. -/
def MainService.init : MainService :=
  { client := none, config := none, connectionConfig := none }

/-- `createClient` (database-handler.ts lines 22-35): builds the pg
`ClientConfig`, stores it in `this.config`, stores the profile in
`this.connectionConfig`, and returns the (not yet connected) client. -/
def MainService.createClient (s : MainService) (cfg : PGConnectionConfig) :
    MainService × ClientConfig :=
  let cc : ClientConfig :=
    { host := cfg.host, port := cfg.port, database := cfg.database,
      user := cfg.username, password := cfg.password, sslFlag := cfg.ssl }
  ({ s with config := some cc, connectionConfig := some cfg }, cc)

/-- `disconnect` (database-handler.ts lines 62-73): if a client exists,
`end()` it (errors logged and swallowed — `endFails` has no effect on
the result), then null out `client` and `config` in the `finally`
block.  `connectionConfig` is not touched.  Returns the new state and
the handle events of the call. -/
def MainService.disconnect (s : MainService) (endFails : Bool) :
    MainService × List HandleEvent :=
  match s.client with
  | some _ => ({ s with client := none, config := none }, [.closed])
  | none => (s, [])

/-- `connect` (database-handler.ts lines 37-60): first `await
this.disconnect()`, then `createClient` and `await client.connect()`.
`outcome = none` means the driver connected; `outcome = some m` means
`connect()` threw with message `m`, in which case the catch block nulls
`client` and `config` (leaving `connectionConfig` as `createClient`
set it). -/
def MainService.connect (s : MainService) (cfg : PGConnectionConfig)
    (endFails : Bool) (outcome : Option String) :
    MainService × ConnTestResult × List HandleEvent :=
  let (s1, ev1) := s.disconnect endFails
  let (s2, cc) := s1.createClient cfg
  match outcome with
  | none =>
      ({ s2 with client := some cc },
       { success := true, message := "Successfully connected to database",
         error := none },
       ev1 ++ [.opened])
  | some m =>
      ({ s2 with client := none, config := none },
       { success := false, message := "Failed to connect: " ++ m,
         error := some m },
       ev1)

/-- `testConnection` (database-handler.ts lines 75-98): `createClient`
(note: this mutates `config` and `connectionConfig`), then connect the
temp client, run `SELECT 1`, and in a `finally` block `end()` the temp
client with errors swallowed.  `connectOutcome` / `queryOutcome`:
`none` = success, `some m` = threw with message `m`.  When the temp
connect failed no handle was ever open, so nothing is closed. -/
def MainService.testConnection (s : MainService) (cfg : PGConnectionConfig)
    (connectOutcome : Option String) (queryOutcome : Option String)
    (endFails : Bool) :
    MainService × ConnTestResult × List HandleEvent :=
  let (s1, _temp) := s.createClient cfg
  match connectOutcome with
  | some m =>
      (s1, { success := false, message := "Connection test failed: " ++ m,
             error := some m }, [])
  | none =>
      match queryOutcome with
      | some m =>
          (s1, { success := false, message := "Connection test failed: " ++ m,
                 error := some m }, [.opened, .closed])
      | none =>
          (s1, { success := true, message := "Connection test successful",
                 error := none }, [.opened, .closed])

/-- `getDataTypeName`'s `typeMap` literal (database-handler.ts lines
209-227), as a partial lookup. -/
def typeMap : Nat → Option String
  | 16 => some "boolean"
  | 23 => some "integer"
  | 21 => some "smallint"
  | 20 => some "bigint"
  | 700 => some "real"
  | 701 => some "double precision"
  | 1700 => some "numeric"
  | 25 => some "text"
  | 1043 => some "varchar"
  | 1082 => some "date"
  | 1114 => some "timestamp"
  | 1184 => some "timestamptz"
  | 114 => some "json"
  | 3802 => some "jsonb"
  | 2950 => some "uuid"
  | 1015 => some "text[]"
  | 1007 => some "integer[]"
  | _ => none

/-- The identifiers present in `typeMap`. -/
def knownTypeIds : List Nat :=
  [16, 23, 21, 20, 700, 701, 1700, 25, 1043, 1082, 1114, 1184, 114, 3802,
   2950, 1015, 1007]

/-- `getDataTypeName` (database-handler.ts lines 208-230):
`typeMap[typeId] || unknown(typeId)`.  The JS `||` falls through on
`undefined` (and would on `""`, but every table value is non-empty, so
the `Option` match is exact). -/
def getDataTypeName (typeId : Nat) : String :=
  match typeMap typeId with
  | some n => n
  | none => "unknown(" ++ toString typeId ++ ")"

/-- `ConnectionManagerService.getConnections` (connection-manager.service.ts
lines 50-62): `localStorage.getItem` is the `storage` argument (`none`
= key absent); `JSON.parse` is the `parse` oracle (`none` = parse
threw, caught and mapped to `[]`). -/
def getConnections (storage : Option String)
    (parse : String → Option (List PGConnectionConfig)) :
    List PGConnectionConfig :=
  match storage with
  | none => []
  | some s =>
      match parse s with
      | some l => l
      | none => []

/-- JS `String.prototype.trim` whitespace test, for the whitespace
characters relevant here (JS also strips further unicode space
characters, none of which occur in this code's inputs). -/
def isJsSpace (c : Char) : Bool :=
  c = ' ' || c = '\t' || c = '\n' || c = '\r' || c = '\x0b' || c = '\x0c'

/-- JS `String.prototype.trim`: strip leading and trailing whitespace. -/
def jsTrim (s : String) : String :=
  ⟨((s.data.dropWhile isJsSpace).reverse.dropWhile isJsSpace).reverse⟩

/-- A driver row: a record of column name / rendered value pairs.  Rows
pass through the normalizer unchanged (`rows: result.rows`), so their
payload representation is opaque to every claim. -/
def Row : Type := List (String × String)

instance : DecidableEq Row := by
  unfold Row
  infer_instance

/-- A field descriptor of a pg driver response (`result.fields`). -/
structure PgField where
  name : String
  dataTypeID : Nat
  deriving DecidableEq

/-- The pg driver-native response `{rows, fields, rowCount, command}`.
`rowCount` and `command` are nullable in the driver (`result.rowCount
|| 0`, `result.command || ''`). -/
structure PgDriverResult where
  rows : List Row
  fields : List PgField
  rowCount : Option Nat
  command : Option String
  deriving DecidableEq

/-- Outcome of `client.query(sql)`: either a driver result, or a thrown
error with message `msg`.  `severed` records whether the underlying
error was the driver signalling the transport itself as dead (the code
never inspects this flag). -/
inductive DriverOutcome where
  | ok (r : PgDriverResult)
  | err (msg : String) (severed : Bool)
  deriving DecidableEq

/-- A normalized field descriptor (`QueryResult.fields` entry built in
`executeQuery`). -/
structure NormField where
  name : String
  dataTypeID : Nat
  dataType : String
  deriving DecidableEq

/-- The normalized `QueryResult` (types.ts). -/
structure NormalizedResult where
  rows : List Row
  fields : List NormField
  rowCount : Nat
  command : String
  duration : Nat
  deriving DecidableEq

deriving instance DecidableEq for Except

/-- Typed errors thrown across the query path.  `notConnected` is the
`throw new Error('No active database connection')` branch; `query msg
severed` is a rethrown driver error. -/
inductive QErr where
  | notConnected
  | query (msg : String) (severed : Bool)
  deriving DecidableEq

/-- The message of a thrown error, as the catch blocks see it. -/
def QErr.message : QErr → String
  | .notConnected => "No active database connection"
  | .query m _ => m

/-- Main-process `executeQuery` (database-handler.ts lines 100-125):
throws `notConnected` when no client; otherwise queries the driver
(`drv`), and on success normalizes the response — fields mapped
through `getDataTypeName`, `rowCount || 0`, `command || ''`, measured
`duration`.  Driver errors are rethrown unchanged; no branch assigns
any service field, so the state passes through untouched. -/
def MainService.executeQuery (s : MainService)
    (drv : String → DriverOutcome) (sql : String) (duration : Nat) :
    MainService × Except QErr NormalizedResult :=
  match s.client with
  | none => (s, .error .notConnected)
  | some _ =>
      match drv sql with
      | .ok r =>
          (s, .ok { rows := r.rows,
                    fields := r.fields.map (fun f =>
                      { name := f.name, dataTypeID := f.dataTypeID,
                        dataType := getDataTypeName f.dataTypeID }),
                    rowCount := r.rowCount.getD 0,
                    command := r.command.getD "",
                    duration := duration })
      | .err m sev => (s, .error (.query m sev))

/-- A row of the two relation-listing catalog queries in `getTables`:
`{name, type}` with `type` one of `table` / `view` /
`materialized_view`. -/
structure RelRow where
  name : String
  relType : String
  deriving DecidableEq

/-- Main-process `getTables` (database-handler.ts lines 143-174): throws
when no client; otherwise runs the tables/views catalog query and the
materialized-views catalog query (each with its own `ORDER BY` — the
oracle arguments are those two result-row lists) and returns
`[...result.rows, ...matViewResult.rows]`, i.e. their concatenation. -/
def MainService.getTables (s : MainService)
    (tablesRows matviewRows : List RelRow) :
    Except QErr (List RelRow) :=
  match s.client with
  | none => .error .notConnected
  | some _ => .ok (tablesRows ++ matviewRows)

/-- Lexicographic (codepoint) comparison of two names, the order the
catalog's `ORDER BY name` produces under the C collation. -/
def lexLeChars : List Char → List Char → Bool
  | [], _ => true
  | _ :: _, [] => false
  | a :: as, b :: bs =>
      if a.toNat < b.toNat then true
      else if a.toNat = b.toNat then lexLeChars as bs
      else false

/-- A relation-row list ordered by relation name (the order the claim
asserts for the merged sequence). -/
def sortedByName (l : List RelRow) : Prop :=
  l.Pairwise (fun a b => lexLeChars a.name.data b.name.data = true)

instance (l : List RelRow) : Decidable (sortedByName l) := by
  unfold sortedByName
  infer_instance

/-- State of the renderer-side `PostgreSQLService`
(postgresql.service.ts lines 6-8). -/
structure RenderService where
  connectionConfig : Option PGConnectionConfig
  connected : Bool
  deriving DecidableEq

/-- Renderer `disconnect` (postgresql.service.ts lines 56-63) composed
with the main-process `disconnect` it invokes over IPC: the `finally`
block always nulls the stored config and clears `connected`. -/
def fullDisconnect (svc : RenderService) (m : MainService)
    (endFails : Bool) :
    RenderService × MainService × List HandleEvent :=
  let (m1, ev) := m.disconnect endFails
  ({ connectionConfig := none, connected := false }, m1, ev)

/-- Renderer `executeQuery` (postgresql.service.ts lines 68-74) composed
with the main-process handler it invokes: throws `notConnected` when
the `connected` flag is down (without crossing IPC), else forwards. -/
def RenderService.executeQuery (svc : RenderService) (m : MainService)
    (drv : String → DriverOutcome) (sql : String) (duration : Nat) :
    RenderService × MainService × Except QErr NormalizedResult :=
  if svc.connected then
    (svc, (m.executeQuery drv sql duration).1, (m.executeQuery drv sql duration).2)
  else
    (svc, m, .error .notConnected)

/-- A query-history entry `{query, timestamp}` (store state). -/
structure QueryHistoryEntry where
  query : String
  timestamp : String
  deriving DecidableEq

/-- `addToQueryHistory` (store): `if (!query.trim()) return`, else
front-insert `{query, timestamp: now}` before
`state.queryHistory.slice(0, 49)`. -/
def addToQueryHistory (hist : List QueryHistoryEntry) (q : String)
    (now : String) : List QueryHistoryEntry :=
  if jsTrim q = "" then hist
  else { query := q, timestamp := now } :: hist.take 49

/-- Iterated `addToQueryHistory` over a list of (query, timestamp)
calls, oldest call first. -/
def runHistory (hist : List QueryHistoryEntry) :
    List (String × String) → List QueryHistoryEntry
  | [] => hist
  | (q, t) :: rest => runHistory (addToQueryHistory hist q t) rest

/-- The query-relevant slice of `useDatabaseStore` state, together with
the two service states it drives.  (`isExecutingQuery` is set and reset
within each `executeQuery` call, so it is omitted; `currentQuery` is
the editor buffer the store falls back to.) -/
structure StoreState where
  svc : RenderService
  main : MainService
  isConnected : Bool
  currentQuery : String
  queryHistory : List QueryHistoryEntry
  queryResult : Option NormalizedResult
  queryError : Option String
  deriving DecidableEq

/-- The effective SQL of a store `executeQuery(query?)` call:
`query || currentQuery` — a missing argument, and also the (falsy)
empty string, fall back to `currentQuery`. -/
def effectiveQuery (st : StoreState) (arg : Option String) : String :=
  match arg with
  | none => st.currentQuery
  | some q => if q = "" then st.currentQuery else q

/-- Store `executeQuery` (store lines 320-342): resolve the effective
query; when its trim is empty return `null` with nothing touched;
otherwise clear `queryError`, call the renderer service, and either
record the result and front-append to history (success) or record the
error message (failure, history untouched).  The returned `Bool` is
whether `postgresqlService.executeQuery` was invoked at all. -/
def storeExecuteQuery (st : StoreState) (drv : String → DriverOutcome)
    (arg : Option String) (now : String) (duration : Nat) :
    StoreState × Option NormalizedResult × Bool :=
  let sql := effectiveQuery st arg
  if jsTrim sql = "" then
    (st, none, false)
  else
    let st1 : StoreState := { st with queryError := none }
    let out := st1.svc.executeQuery st1.main drv sql duration
    match out.2.2 with
    | .ok r =>
        ({ st1 with svc := out.1, main := out.2.1, queryResult := some r,
                    queryHistory := addToQueryHistory st1.queryHistory sql now },
         some r, true)
    | .error e =>
        ({ st1 with svc := out.1, main := out.2.1, queryError := some e.message },
         none, true)

/-- One call against the main-process service, with its oracle inputs
(driver outcomes and close-error flags). -/
inductive SessionOp where
  | connect (cfg : PGConnectionConfig) (endFails : Bool)
      (outcome : Option String)
  | disconnect (endFails : Bool)
  | testConnection (cfg : PGConnectionConfig)
      (connectOutcome queryOutcome : Option String) (endFails : Bool)

/-- Apply one call, keeping only the state and the handle events. -/
def MainService.applyOp (s : MainService) :
    SessionOp → MainService × List HandleEvent
  | .connect cfg e o =>
      ((s.connect cfg e o).1, (s.connect cfg e o).2.2)
  | .disconnect e => s.disconnect e
  | .testConnection cfg co qo e =>
      ((s.testConnection cfg co qo e).1, (s.testConnection cfg co qo e).2.2)

/-- Run a call sequence, concatenating the handle events. -/
def MainService.runOps (s : MainService) :
    List SessionOp → MainService × List HandleEvent
  | [] => (s, [])
  | op :: rest =>
      (((s.applyOp op).1.runOps rest).1,
       (s.applyOp op).2 ++ ((s.applyOp op).1.runOps rest).2)

/-- Number of handle opens in an event trace. -/
def opensIn (evs : List HandleEvent) : Nat :=
  evs.countP (fun e => match e with | .opened => true | .closed => false)

/-- Number of handle closes in an event trace. -/
def closesIn (evs : List HandleEvent) : Nat :=
  evs.countP (fun e => match e with | .opened => false | .closed => true)

/-- 1 when the service holds an open handle, else 0. -/
def heldHandles (s : MainService) : Nat :=
  match s.client with
  | some _ => 1
  | none => 0

/-! ### Concrete profiles, driver oracles and states used as inputs -/

/-- A sample connection profile. -/
def profileA : PGConnectionConfig :=
  { id := some "a1", name := "A", host := "localhost", port := 5432,
    database := "app", username := "app", password := "x", ssl := false,
    savePassword := true, lastUsed := none }

/-- A second, distinct profile. -/
def profileB : PGConnectionConfig :=
  { profileA with id := some "b1", name := "B", host := "otherhost" }

/-- The service after one successful `connect(profileA)`. -/
def connectedMain : MainService :=
  (MainService.init.connect profileA false none).1

/-- A driver that answers every query like `SELECT 1`. -/
def demoDriver : String → DriverOutcome := fun _ =>
  .ok { rows := [], fields := [{ name := "?column?", dataTypeID := 23 }],
        rowCount := some 1, command := some "SELECT" }

/-- A driver whose every query fails with an error flagged as a severed
transport. -/
def severedDriver : String → DriverOutcome := fun _ =>
  .err "Connection terminated unexpectedly" true

/-- A connected store whose editor buffer holds `SELECT 1`. -/
def demoStore : StoreState :=
  { svc := { connectionConfig := some profileA, connected := true },
    main := connectedMain,
    isConnected := true,
    currentQuery := "SELECT 1",
    queryHistory := [], queryResult := none, queryError := none }

/-- A disconnected store with an empty editor buffer. -/
def disconnectedStore : StoreState :=
  { svc := { connectionConfig := none, connected := false },
    main := MainService.init,
    isConnected := false,
    currentQuery := "",
    queryHistory := [], queryResult := none, queryError := none }

/-- The normalization of `demoDriver`'s response. -/
def demoNormalized : NormalizedResult :=
  { rows := [],
    fields := [{ name := "?column?", dataTypeID := 23, dataType := "integer" }],
    rowCount := 1, command := "SELECT", duration := 1 }

/-- A sample call sequence ending in a disconnect. -/
def demoOps : List SessionOp :=
  [.connect profileA false none,
   .connect profileA false none,
   .testConnection profileB none none false,
   .connect profileB false (some "timeout"),
   .connect profileA false none,
   .disconnect false]

/-! ### Handle accounting -/

/-- Each single call keeps the open/close/held balance. -/
lemma applyOp_handle_balance (s : MainService) (op : SessionOp) :
    opensIn (s.applyOp op).2 + heldHandles s =
      closesIn (s.applyOp op).2 + heldHandles (s.applyOp op).1 := by
  cases op with
  | connect cfg e o =>
      cases o <;> cases h : s.client <;>
        simp [MainService.applyOp, MainService.connect, MainService.disconnect,
              MainService.createClient, opensIn, closesIn, heldHandles, h]
  | disconnect e =>
      cases h : s.client <;>
        simp [MainService.applyOp, MainService.disconnect, opensIn, closesIn,
              heldHandles, h]
  | testConnection cfg co qo e =>
      cases co <;> cases qo <;>
        simp [MainService.applyOp, MainService.testConnection,
              MainService.createClient, opensIn, closesIn, heldHandles]

/-- A call sequence keeps the open/close/held balance. -/
lemma runOps_handle_balance (ops : List SessionOp) (s : MainService) :
    opensIn (s.runOps ops).2 + heldHandles s =
      closesIn (s.runOps ops).2 + heldHandles (s.runOps ops).1 := by
  induction ops generalizing s with
  | nil => simp [MainService.runOps, opensIn, closesIn]
  | cons op rest ih =>
      have h1 := applyOp_handle_balance s op
      have h2 := ih ((s.applyOp op).1)
      simp only [MainService.runOps, opensIn, closesIn, List.countP_append] at *
      omega

/-- C1: connect behaves as disconnect-then-connect — for every profile
and oracle outcome, `connect(P); connect(P)` lands in the same state
(and returns the same result) as `disconnect(); connect(P)` — and over
any call sequence from the initial state that ends with no live client,
the number of handle closes equals the number of handle opens. -/
theorem connect_is_disconnect_then_connect :
    (∀ (s : MainService) (cfg : PGConnectionConfig) (e1 e2 : Bool)
       (o1 o2 : Option String),
       ((s.connect cfg e1 o1).1.connect cfg e2 o2).1
           = ((s.disconnect e1).1.connect cfg e2 o2).1
       ∧ ((s.connect cfg e1 o1).1.connect cfg e2 o2).2.1
           = ((s.disconnect e1).1.connect cfg e2 o2).2.1)
    ∧ (∀ ops : List SessionOp,
       (MainService.init.runOps ops).1.client = none →
       opensIn (MainService.init.runOps ops).2
         = closesIn (MainService.init.runOps ops).2) := by
  constructor
  · intro s cfg e1 e2 o1 o2
    constructor <;>
      cases o1 <;> cases o2 <;> cases h : s.client <;>
        simp [MainService.connect, MainService.disconnect,
              MainService.createClient, h]
  · intro ops h
    have hb := runOps_handle_balance ops MainService.init
    have h0 : heldHandles MainService.init = 0 := rfl
    have h1 : heldHandles (MainService.init.runOps ops).1 = 0 := by
      simp [heldHandles, h]
    rw [h0, h1] at hb
    omega

/-- C1 at concrete inputs: the double-connect equivalence for
`profileA` from the initial state, and open/close balance over
`demoOps` (which ends disconnected). -/
theorem connect_is_disconnect_then_connect_witness :
    ((MainService.init.connect profileA false none).1.connect profileA false none).1
        = ((MainService.init.disconnect false).1.connect profileA false none).1
    ∧ opensIn (MainService.init.runOps demoOps).2
        = closesIn (MainService.init.runOps demoOps).2 :=
  ⟨(connect_is_disconnect_then_connect.1 MainService.init profileA false false
      none none).1,
   connect_is_disconnect_then_connect.2 demoOps (by decide)⟩

/-! ### Query history -/

/-- The history entry a (query, timestamp) call produces. -/
def mkHistoryEntry (p : String × String) : QueryHistoryEntry :=
  { query := p.1, timestamp := p.2 }

/-- Unfolding `runHistory` from the right. -/
lemma runHistory_append (h : List QueryHistoryEntry)
    (qs : List (String × String)) (p : String × String) :
    runHistory h (qs ++ [p]) = addToQueryHistory (runHistory h qs) p.1 p.2 := by
  induction qs generalizing h with
  | nil => obtain ⟨a, b⟩ := p; simp [runHistory]
  | cons q rest ih =>
      obtain ⟨a, b⟩ := q
      simp [runHistory, ih]

/-- Taking 50 of a list capped after a front insertion agrees with
taking 50 of the uncapped list. -/
lemma take50_cons_take49 (R : List QueryHistoryEntry)
    (e : QueryHistoryEntry) (h : List QueryHistoryEntry) :
    (R ++ e :: h.take 49).take 50 = (R ++ e :: h).take 50 := by
  rw [List.take_append_eq_append_take, List.take_append_eq_append_take]
  congr 1
  rcases hn : 50 - R.length with _ | m
  · simp
  · have hm : m ≤ 49 := by omega
    rw [List.take_succ_cons, List.take_succ_cons, List.take_take]
    rw [Nat.min_eq_left hm]

/-- Closed form of the history log: running calls with non-blank
queries over a history no longer than 50 yields the reversed call list
prepended to the old history, truncated to 50. -/
lemma runHistory_closed_form (qs : List (String × String))
    (h : List QueryHistoryEntry) (hh : h.length ≤ 50)
    (hq : ∀ p ∈ qs, ¬ jsTrim p.1 = "") :
    runHistory h qs = ((qs.map mkHistoryEntry).reverse ++ h).take 50 := by
  induction qs generalizing h with
  | nil => simp [runHistory, List.take_of_length_le hh]
  | cons p rest ih =>
      obtain ⟨q, t⟩ := p
      have hq1 : ¬ jsTrim q = "" := hq (q, t) (by simp)
      have hrest : ∀ p ∈ rest, ¬ jsTrim p.1 = "" :=
        fun p hp => hq p (by simp [hp])
      have hstep : runHistory h ((q, t) :: rest)
          = runHistory (addToQueryHistory h q t) rest := rfl
      have hlen : (addToQueryHistory h q t).length ≤ 50 := by
        simp only [addToQueryHistory, hq1, ite_false, List.length_cons,
          List.length_take]
        omega
      rw [hstep, ih _ hlen hrest]
      simp only [addToQueryHistory, hq1, if_neg, ite_false, List.map_cons,
        List.reverse_cons, List.append_assoc, List.singleton_append]
      exact take50_cons_take49 _ _ h

/-- C5: the query history is an append-to-front bounded log — a
non-blank successful run's entry is inserted at the front over the
first 49 old entries, the log never grows past 50 entries, and 51
sequential successful runs starting from an empty history leave
exactly the last 50 calls, most recent first. -/
theorem history_bounded_log :
    (∀ (h : List QueryHistoryEntry) (q now : String), h.length ≤ 50 →
        (addToQueryHistory h q now).length ≤ 50)
    ∧ (∀ (h : List QueryHistoryEntry) (q now : String), ¬ jsTrim q = "" →
        addToQueryHistory h q now
          = { query := q, timestamp := now } :: h.take 49)
    ∧ (∀ qs : List (String × String), qs.length = 51 →
        (∀ p ∈ qs, ¬ jsTrim p.1 = "") →
        (runHistory [] qs).length = 50
        ∧ runHistory [] qs = ((qs.map mkHistoryEntry).reverse).take 50) := by
  refine ⟨?_, ?_, ?_⟩
  · intro h q now hh
    by_cases ht : jsTrim q = ""
    · simpa [addToQueryHistory, ht] using hh
    · simp only [addToQueryHistory, ht, if_false, ite_false, List.length_cons,
        List.length_take]
      omega
  · intro h q now ht
    simp [addToQueryHistory, ht]
  · intro qs hlen hq
    have hc := runHistory_closed_form qs [] (by simp) hq
    simp only [List.append_nil] at hc
    refine ⟨?_, hc⟩
    rw [hc]
    simp [List.length_take, hlen]

/-- C5 at concrete inputs: 51 identical non-blank calls leave exactly
50 entries, and one insertion into an empty history stays within the
bound. -/
theorem history_bounded_log_witness :
    (runHistory [] (List.replicate 51 ("SELECT 1", "t"))).length = 50
    ∧ (addToQueryHistory [] "SELECT 1" "t").length ≤ 50 :=
  ⟨(history_bounded_log.2.2 (List.replicate 51 ("SELECT 1", "t"))
      (by decide) (by decide)).1,
   history_bounded_log.1 [] "SELECT 1" "t" (by decide)⟩

/-! ### The store query path -/

/-- Main-process `executeQuery` assigns no service field in any
branch. -/
lemma mainExecuteQuery_state (m : MainService) (drv : String → DriverOutcome)
    (sql : String) (dur : Nat) :
    (m.executeQuery drv sql dur).1 = m := by
  unfold MainService.executeQuery
  cases hc : m.client <;> cases hd : drv sql <;> simp [hc, hd]

/-- The renderer service state passes through `executeQuery`
unchanged. -/
lemma renderExecuteQuery_svc (svc : RenderService) (m : MainService)
    (drv : String → DriverOutcome) (sql : String) (dur : Nat) :
    (svc.executeQuery m drv sql dur).1 = svc := by
  unfold RenderService.executeQuery
  by_cases h : svc.connected <;> simp [h]

/-- The main-process state passes through the renderer `executeQuery`
unchanged. -/
lemma renderExecuteQuery_main (svc : RenderService) (m : MainService)
    (drv : String → DriverOutcome) (sql : String) (dur : Nat) :
    (svc.executeQuery m drv sql dur).2.1 = m := by
  unfold RenderService.executeQuery
  by_cases h : svc.connected <;> simp [h, mainExecuteQuery_state]

/-- Case characterization of the store `executeQuery`. -/
lemma storeExecuteQuery_eq (st : StoreState) (drv : String → DriverOutcome)
    (arg : Option String) (now : String) (dur : Nat) :
    storeExecuteQuery st drv arg now dur
      = if jsTrim (effectiveQuery st arg) = "" then (st, none, false)
        else
          match (st.svc.executeQuery st.main drv (effectiveQuery st arg) dur).2.2 with
          | .ok r =>
              ({ st with queryResult := some r, queryError := none,
                         queryHistory := addToQueryHistory st.queryHistory
                           (effectiveQuery st arg) now },
               some r, true)
          | .error e =>
              ({ st with queryError := some e.message }, none, true) := by
  unfold storeExecuteQuery
  by_cases he : jsTrim (effectiveQuery st arg) = ""
  · simp [he]
  · simp only [he, ite_false]
    rcases hres : (st.svc.executeQuery st.main drv (effectiveQuery st arg) dur).2.2
      with e | r
    · simp [hres, renderExecuteQuery_svc, renderExecuteQuery_main]
    · simp [hres, renderExecuteQuery_svc, renderExecuteQuery_main]

/-- C3 counterexample: on a Connected store whose editor buffer holds
`SELECT 1`, `run("")` — whose trimmed input is empty — falls back to
`currentQuery` (JS `query || currentQuery` treats `""` as falsy),
contacts the Session, and even appends to history, instead of failing
fast with an empty-query result. -/
theorem run_blank_arg_contacts_session :
    (storeExecuteQuery demoStore demoDriver (some "") "t0" 1).2.2 = true
    ∧ (storeExecuteQuery demoStore demoDriver (some "") "t0" 1).1.queryHistory
        = [{ query := "SELECT 1", timestamp := "t0" }] := by
  exact ⟨by decide, by decide⟩

/-- C3 amended: when the effective query (the argument, falling back to
`currentQuery` for a missing or empty argument) trims to empty, `run`
returns null with the whole state untouched and without invoking the
Session; when it is non-blank but the Session is not Connected, `run`
fails with the `No active database connection` error recorded and
returns null, leaving history (and everything but `queryError`)
unchanged; `run("")` and `run("   ")` behave identically whenever
`currentQuery` trims to empty. -/
theorem run_trim_empty_and_not_connected (st : StoreState)
    (drv : String → DriverOutcome) (arg : Option String) (now : String)
    (dur : Nat) :
    (jsTrim (effectiveQuery st arg) = "" →
        storeExecuteQuery st drv arg now dur = (st, none, false))
    ∧ (¬ jsTrim (effectiveQuery st arg) = "" → st.svc.connected = false →
        storeExecuteQuery st drv arg now dur
          = ({ st with queryError := some "No active database connection" },
             none, true))
    ∧ (jsTrim st.currentQuery = "" →
        storeExecuteQuery st drv (some "") now dur
          = storeExecuteQuery st drv (some "   ") now dur) := by
  refine ⟨?_, ?_, ?_⟩
  · intro he
    rw [storeExecuteQuery_eq, if_pos he]
  · intro he hc
    rw [storeExecuteQuery_eq, if_neg he]
    unfold RenderService.executeQuery
    simp [hc, QErr.message]
  · intro he
    have h1 : effectiveQuery st (some "") = st.currentQuery := by
      simp [effectiveQuery]
    have h2 : effectiveQuery st (some "   ") = "   " := by
      simp [effectiveQuery]
    have h3 : jsTrim "   " = "" := by decide
    rw [storeExecuteQuery_eq, storeExecuteQuery_eq, h1, h2, h3,
        if_pos he, if_pos rfl]

/-- C3 amended at concrete inputs: a disconnected store with an empty
buffer — `run("   ")` is a silent no-op, `run("SELECT 1")` fails with
the not-connected error and no history entry, and `run("")` equals
`run("   ")`. -/
theorem run_trim_empty_and_not_connected_witness :
    storeExecuteQuery disconnectedStore demoDriver (some "   ") "t0" 1
        = (disconnectedStore, none, false)
    ∧ storeExecuteQuery disconnectedStore demoDriver (some "SELECT 1") "t0" 1
        = ({ disconnectedStore with
              queryError := some "No active database connection" }, none, true)
    ∧ storeExecuteQuery disconnectedStore demoDriver (some "") "t0" 1
        = storeExecuteQuery disconnectedStore demoDriver (some "   ") "t0" 1 :=
  ⟨(run_trim_empty_and_not_connected disconnectedStore demoDriver (some "   ")
      "t0" 1).1 (by decide),
   (run_trim_empty_and_not_connected disconnectedStore demoDriver
      (some "SELECT 1") "t0" 1).2.1 (by decide) (by decide),
   (run_trim_empty_and_not_connected disconnectedStore demoDriver (some "")
      "t0" 1).2.2 (by decide)⟩

/-- C4 amended: every `run` that does not produce a result (empty
query, not connected, or driver error — severed transport included)
leaves the query history and every piece of connectivity state exactly
as it was; no branch of the code transitions to a failed/disconnected
state on a query error. -/
theorem failed_run_preserves_history_and_connectivity (st : StoreState)
    (drv : String → DriverOutcome) (arg : Option String) (now : String)
    (dur : Nat)
    (h : (storeExecuteQuery st drv arg now dur).2.1 = none) :
    (storeExecuteQuery st drv arg now dur).1.queryHistory = st.queryHistory
    ∧ (storeExecuteQuery st drv arg now dur).1.svc = st.svc
    ∧ (storeExecuteQuery st drv arg now dur).1.main = st.main
    ∧ (storeExecuteQuery st drv arg now dur).1.isConnected = st.isConnected := by
  rw [storeExecuteQuery_eq] at h ⊢
  by_cases he : jsTrim (effectiveQuery st arg) = ""
  · simp [he]
  · simp only [he, ite_false] at h ⊢
    rcases hres : (st.svc.executeQuery st.main drv (effectiveQuery st arg) dur).2.2
      with e | r
    · simp [hres]
    · rw [hres] at h
      simp at h

/-- C4 at concrete inputs: a run whose driver call fails (severed
transport) changes neither history nor connectivity. -/
theorem failed_run_preserves_history_and_connectivity_witness :
    (storeExecuteQuery demoStore severedDriver (some "SELECT 1") "t0" 1).1.queryHistory
        = demoStore.queryHistory
    ∧ (storeExecuteQuery demoStore severedDriver (some "SELECT 1") "t0" 1).1.svc
        = demoStore.svc
    ∧ (storeExecuteQuery demoStore severedDriver (some "SELECT 1") "t0" 1).1.main
        = demoStore.main
    ∧ (storeExecuteQuery demoStore severedDriver (some "SELECT 1") "t0" 1).1.isConnected
        = demoStore.isConnected :=
  failed_run_preserves_history_and_connectivity demoStore severedDriver
    (some "SELECT 1") "t0" 1 (by decide)

/-- The store state after a severed-transport query failure on the
connected demo store. -/
def afterSevered : StoreState :=
  (storeExecuteQuery demoStore severedDriver (some "SELECT 1") "t0" 1).1

/-- C4 counterexample: when the driver flags the transport itself as
severed, the Session does NOT transition to any failed/disconnected
state — the connected flags and the live client survive, only
`queryError` records the message — and a subsequent `executeQuery`
still attempts execution rather than reporting `NotConnected`. -/
theorem severed_transport_not_degraded :
    afterSevered.svc.connected = true
    ∧ afterSevered.main.client = demoStore.main.client
    ∧ afterSevered.isConnected = true
    ∧ afterSevered.queryError = some "Connection terminated unexpectedly"
    ∧ ¬ ((afterSevered.svc.executeQuery afterSevered.main severedDriver
            "SELECT 2" 1).2.2 = Except.error QErr.notConnected) := by
  exact ⟨by decide, by decide, by decide, by decide, by decide⟩

/-! ### testConnection, disconnect, getTables, type catalog, stored
connections -/

/-- The main-process state after `testConnection(profileB)` succeeds on
a session connected to `profileA`. -/
def afterTest : MainService :=
  (connectedMain.testConnection profileB none none false).1

/-- C6, evaluated at the failing input: `testConnection(B)` on a
session connected to A opens and unconditionally closes its own
short-lived handle and leaves the live handle in place, BUT — through
`createClient`'s side effect — overwrites the stored `config` /
`connectionConfig` with the test profile, so the Session state is not
left unchanged. -/
theorem testConnection_overwrites_stored_config :
    (connectedMain.testConnection profileB none none false).2.2
        = [.opened, .closed]
    ∧ (connectedMain.testConnection profileB none none true).2.2
        = [.opened, .closed]
    ∧ afterTest.client = connectedMain.client
    ∧ connectedMain.connectionConfig = some profileA
    ∧ afterTest.connectionConfig = some profileB
    ∧ ¬ afterTest = connectedMain := by
  exact ⟨by decide, by decide, by decide, by decide, by decide, by decide⟩

/-- C7: the combined renderer + main `disconnect` is idempotent (a
second call is a no-op with no further handle events), closes the
handle exactly when one exists, swallows close errors (the result does
not depend on whether `end()` threw, and no error is returned), and
always ends Disconnected with the active profile cleared. -/
theorem disconnect_idempotent_and_clears (svc : RenderService)
    (m : MainService) (e e2 : Bool) :
    fullDisconnect (fullDisconnect svc m e).1 (fullDisconnect svc m e).2.1 e2
        = ((fullDisconnect svc m e).1, (fullDisconnect svc m e).2.1, [])
    ∧ (fullDisconnect svc m e).2.2
        = (match m.client with | some _ => [.closed] | none => [])
    ∧ fullDisconnect svc m e = fullDisconnect svc m true
    ∧ (fullDisconnect svc m e).1.connected = false
    ∧ (fullDisconnect svc m e).1.connectionConfig = none
    ∧ (fullDisconnect svc m e).2.1.client = none := by
  unfold fullDisconnect MainService.disconnect
  cases hc : m.client <;> simp [hc]

/-- C8 counterexample: with one ordinary table `b` and one materialized
view `a` — each underlying query already ordered by name — the merged
sequence is `[b, a]`, which is NOT ordered by relation name: the code
concatenates the two results instead of merging them by name. -/
theorem getTables_not_globally_ordered :
    connectedMain.getTables [{ name := "b", relType := "table" }]
        [{ name := "a", relType := "materialized_view" }]
      = .ok [{ name := "b", relType := "table" },
             { name := "a", relType := "materialized_view" }]
    ∧ sortedByName [{ name := "b", relType := "table" }]
    ∧ sortedByName [{ name := "a", relType := "materialized_view" }]
    ∧ ¬ sortedByName [{ name := "b", relType := "table" },
                      { name := "a", relType := "materialized_view" }] := by
  exact ⟨by decide, by decide, by decide, by decide⟩

/-- C8 amended: with a live client, `listRelations` returns the
tables/views rows followed by the materialized-view rows — the plain
concatenation of the two underlying query results, containing exactly
their union (each part ordered by name by its own query, but the
combined sequence not globally reordered). -/
theorem getTables_concatenates_union (s : MainService)
    (tq mq : List RelRow) (h : s.client.isSome = true) :
    s.getTables tq mq = .ok (tq ++ mq)
    ∧ ∀ r : RelRow, (r ∈ tq ++ mq ↔ r ∈ tq ∨ r ∈ mq) := by
  obtain ⟨c, hc⟩ := Option.isSome_iff_exists.mp h
  constructor
  · unfold MainService.getTables
    rw [hc]
  · intro r
    exact List.mem_append

/-- C8 amended at concrete inputs. -/
theorem getTables_concatenates_union_witness :
    connectedMain.getTables [{ name := "b", relType := "table" }]
        [{ name := "c", relType := "materialized_view" }]
      = .ok ([{ name := "b", relType := "table" }]
             ++ [{ name := "c", relType := "materialized_view" }])
    ∧ ∀ r : RelRow,
        (r ∈ [({ name := "b", relType := "table" } : RelRow)]
               ++ [{ name := "c", relType := "materialized_view" }]
          ↔ r ∈ [({ name := "b", relType := "table" } : RelRow)]
            ∨ r ∈ [({ name := "c", relType := "materialized_view" } : RelRow)]) :=
  getTables_concatenates_union connectedMain
    [{ name := "b", relType := "table" }]
    [{ name := "c", relType := "materialized_view" }] (by decide)

/-- Identifiers outside `knownTypeIds` miss the lookup table. -/
lemma typeMap_none_of_not_mem (id : Nat) (h : id ∉ knownTypeIds) :
    typeMap id = none := by
  unfold typeMap
  split <;> simp_all [knownTypeIds]

/-- Every name in the lookup table is non-empty. -/
lemma typeMap_values_nonempty (id : Nat) (n : String)
    (h : typeMap id = some n) : ¬ n = "" := by
  unfold typeMap at h
  split at h <;>
    first
      | (injection h with h2; subst h2; decide)
      | (exact absurd h (by simp))

/-- `getDataTypeName` never returns the empty string. -/
lemma getDataTypeName_ne_empty (id : Nat) : ¬ getDataTypeName id = "" := by
  unfold getDataTypeName
  cases h : typeMap id with
  | some n => exact typeMap_values_nonempty id n h
  | none =>
      intro contra
      have hl := congrArg String.length contra
      rw [String.length_append, String.length_append] at hl
      have h8 : String.length "unknown(" = 8 := by decide
      have h1 : String.length ")" = 1 := by decide
      have h0 : String.length "" = 0 := by decide
      rw [h8, h1, h0] at hl
      omega

/-- C9: the type catalog is total — it returns the tabled
human-readable name for each of the 17 built-in identifiers,
`unknown(<id>)` for every identifier outside the table, never the
empty string; and every field the Result Normalizer emits carries
exactly `getDataTypeName` of its type identifier, hence never an empty
type name. -/
theorem typeCatalog_total :
    (getDataTypeName 16 = "boolean" ∧ getDataTypeName 23 = "integer"
      ∧ getDataTypeName 21 = "smallint" ∧ getDataTypeName 20 = "bigint"
      ∧ getDataTypeName 700 = "real"
      ∧ getDataTypeName 701 = "double precision"
      ∧ getDataTypeName 1700 = "numeric" ∧ getDataTypeName 25 = "text"
      ∧ getDataTypeName 1043 = "varchar" ∧ getDataTypeName 1082 = "date"
      ∧ getDataTypeName 1114 = "timestamp"
      ∧ getDataTypeName 1184 = "timestamptz"
      ∧ getDataTypeName 114 = "json" ∧ getDataTypeName 3802 = "jsonb"
      ∧ getDataTypeName 2950 = "uuid" ∧ getDataTypeName 1015 = "text[]"
      ∧ getDataTypeName 1007 = "integer[]")
    ∧ (∀ id : Nat, id ∉ knownTypeIds →
        getDataTypeName id = "unknown(" ++ toString id ++ ")")
    ∧ (∀ id : Nat, ¬ getDataTypeName id = "")
    ∧ (∀ (s : MainService) (drv : String → DriverOutcome) (sql : String)
        (dur : Nat) (r : NormalizedResult),
        (s.executeQuery drv sql dur).2 = .ok r →
        ∀ f ∈ r.fields,
          f.dataType = getDataTypeName f.dataTypeID ∧ ¬ f.dataType = "") := by
  refine ⟨by decide, ?_, getDataTypeName_ne_empty, ?_⟩
  · intro id h
    unfold getDataTypeName
    rw [typeMap_none_of_not_mem id h]
  · intro s drv sql dur r h f hf
    unfold MainService.executeQuery at h
    cases hc : s.client with
    | none => rw [hc] at h; exact absurd h (by simp)
    | some c =>
        rw [hc] at h
        cases hd : drv sql with
        | err m sev => rw [hd] at h; exact absurd h (by simp)
        | ok res =>
            rw [hd] at h
            simp only [Except.ok.injEq] at h
            subst h
            simp only [List.mem_map] at hf
            obtain ⟨g, hg, rfl⟩ := hf
            exact ⟨rfl, getDataTypeName_ne_empty g.dataTypeID⟩

/-- C9 at concrete inputs: an identifier outside the table resolves
to `unknown(9999)`, and the field the normalizer emits for `SELECT 1`
resolves to the non-empty `integer`. -/
theorem typeCatalog_total_witness :
    getDataTypeName 9999 = "unknown(" ++ toString 9999 ++ ")"
    ∧ (({ name := "?column?", dataTypeID := 23,
          dataType := "integer" } : NormField).dataType
        = getDataTypeName 23
      ∧ ¬ ({ name := "?column?", dataTypeID := 23,
             dataType := "integer" } : NormField).dataType = "") :=
  ⟨typeCatalog_total.2.1 9999 (by decide),
   typeCatalog_total.2.2.2 connectedMain demoDriver "SELECT 1" 1 demoNormalized
     (by decide)
     { name := "?column?", dataTypeID := 23, dataType := "integer" }
     (by decide)⟩

/-- C10: `getConnections` is total at the public interface — with the
storage key absent it returns `[]`, with a present but unparsable
value it returns `[]`, and with a parsable value it returns the parsed
list; no input makes it throw. -/
theorem getConnections_total :
    (∀ parse : String → Option (List PGConnectionConfig),
        getConnections none parse = [])
    ∧ (∀ (s : String) (parse : String → Option (List PGConnectionConfig)),
        parse s = none → getConnections (some s) parse = [])
    ∧ (∀ (s : String) (parse : String → Option (List PGConnectionConfig))
        (l : List PGConnectionConfig),
        parse s = some l → getConnections (some s) parse = l) := by
  refine ⟨fun _ => rfl, ?_, ?_⟩
  · intro s parse h
    simp [getConnections, h]
  · intro s parse l h
    simp [getConnections, h]

/-- C10 at concrete inputs: absent key and unparsable value both yield
the empty list. -/
theorem getConnections_total_witness :
    getConnections none (fun _ => none) = []
    ∧ getConnections (some "not json") (fun _ => none) = []
    ∧ getConnections (some "[]") (fun _ => some []) = ([] : List PGConnectionConfig) :=
  ⟨getConnections_total.1 (fun _ => none),
   getConnections_total.2.1 "not json" (fun _ => none) rfl,
   getConnections_total.2.2 "[]" (fun _ => some []) [] rfl⟩
